import Mathlib

/-!
Verification development for the smartSchedulo data-hub scheduling simulator.

The Python sources are shallowly embedded: floats become `ℚ`, minute counters
become `ℤ`, mutating methods become pure state-transforming functions, and a
method that both returns a value and mutates its receiver returns a pair.
Definitions follow the corresponding Python functions statement by statement.
-/

namespace SmartSchedulo

/-! ## Configuration constants (src/config.py) -/

def MAX_DATA_HUB_POWER : ℚ := 10

def BASELINE_BACKGROUND_LOAD : ℚ := 3

def THERMAL_THRESHOLD : ℚ := 32

def TEMP_THRESHOLD : ℚ := 25

def COOLING_FACTOR : ℚ := 1/2

def COOLING_COP : ℚ := 3

def GRID_CARBON_INTENSITY : ℚ := 7/10

def TIME_STEP_MINUTES : ℤ := 10

/-- Load-dependent cooling factor (src/cooling_model.py, module constant). -/
def LOAD_COOLING_FACTOR : ℚ := 1/20

/-! ## Job (src/job.py) -/

/-- Job priority labels; construction validates membership in
{high, medium, low}, so the embedding uses an enumeration. -/
inductive Priority where
  | high
  | medium
  | low
deriving DecidableEq

/-- Job lifecycle status strings. -/
inductive JobStatus where
  | WAITING
  | RUNNING
  | DONE
deriving DecidableEq

/-- State of one `Job` object (src/job.py, `__init__` fields). -/
structure Job where
  name : String
  power_kw : ℚ
  duration : ℤ
  remaining : ℤ
  priority : Priority
  deadline : Option ℚ
  status : JobStatus
  penalized : Bool
  start_hour : Option ℚ
deriving DecidableEq

/-- `Job.__init__`: a freshly constructed job. -/
def mkJob (name : String) (power_kw : ℚ) (duration_min : ℤ)
    (priority : Priority) (deadline_hour : Option ℚ) : Job :=
  { name := name
    power_kw := power_kw
    duration := duration_min
    remaining := duration_min
    priority := priority
    deadline := deadline_hour
    status := .WAITING
    penalized := false
    start_hour := none }

namespace Job

/-- `Job.start(current_hour)` (src/job.py lines 37-42). -/
def start (j : Job) (current_hour : ℚ) : Job :=
  if j.status = .WAITING then
    { j with
      status := .RUNNING
      start_hour := if j.start_hour = none then some current_hour else j.start_hour }
  else j

/-- `Job.run_step(dt_min, current_hour)` (src/job.py lines 44-65). -/
def run_step (j : Job) (dt_min : ℤ) (current_hour : ℚ) : Job :=
  if j.status = .DONE then j
  else
    let j1 := if j.status = .WAITING then j.start current_hour else j
    let r := j1.remaining - dt_min
    if r ≤ 0 then { j1 with remaining := 0, status := .DONE }
    else { j1 with remaining := r }

/-- `Job.deadline_missed(current_hour)` (src/job.py lines 67-86); returns the
boolean result together with the updated job state. -/
def deadline_missed (j : Job) (current_hour : ℚ) : Bool × Job :=
  match j.deadline with
  | none => (false, j)
  | some d =>
    if d < current_hour ∧ j.status ≠ .DONE ∧ j.penalized = false then
      (true, { j with penalized := true })
    else (false, j)

/-- `Job.is_waiting()`. -/
def is_waiting (j : Job) : Bool := j.status = .WAITING

/-- `Job.is_running()`. -/
def is_running (j : Job) : Bool := j.status = .RUNNING

/-- `Job.is_done()`. -/
def is_done (j : Job) : Bool := j.status = .DONE

end Job

/-- Value of `Job.urgency_score`: a rational or `float('inf')`. -/
inductive Urg where
  | inf
  | val (q : ℚ)
deriving DecidableEq

/-- `Job.urgency_score(current_hour)` (src/job.py lines 100-119). -/
def Job.urgency_score (j : Job) (current_hour : ℚ) : Urg :=
  match j.deadline with
  | none => .val 0
  | some d =>
    if d - current_hour ≤ 0 then .inf
    else .val ((j.remaining / 60) / (d - current_hour))

/-! ## Baseline scheduler (src/baseline_scheduler.py) -/

/-- Loop body of `BaselineScheduler.schedule` (lines 60-79): walk the job
registry in registration order carrying the cumulative power `acc`; a WAITING
job within capacity is started and admitted, the first WAITING job over
capacity stops the loop (`break`), non-WAITING jobs are simply not in
`waiting_jobs`.  Returns (admitted jobs, updated registry); admitted jobs are
shared references into the registry, so both sides carry the `start` update. -/
def baselineLoop (hour acc : ℚ) : List Job → List Job × List Job
  | [] => ([], [])
  | j :: rest =>
    if j.is_waiting then
      if acc + j.power_kw ≤ MAX_DATA_HUB_POWER then
        let j1 := j.start hour
        let p := baselineLoop hour (acc + j.power_kw) rest
        (j1 :: p.1, j1 :: p.2)
      else ([], j :: rest)
    else
      let p := baselineLoop hour acc rest
      (p.1, j :: p.2)

/-- `BaselineScheduler.schedule(solar, temp, hour)`: ignores `solar` and
`temp`; cumulative power starts from the background load. -/
def baselineSchedule (jobs : List Job) (_solar _temp hour : ℚ) :
    List Job × List Job :=
  baselineLoop hour BASELINE_BACKGROUND_LOAD jobs

/-! ## Smart scheduler (src/scheduler.py) -/

/-- `priority_levels` encoding inside `priority_key` (line 104). -/
def priorityLevel : Priority → ℕ
  | .high => 0
  | .medium => 1
  | .low => 2

/-- Negated urgency values: `-job.urgency_score(...)`, where `float('inf')`
negates to minus infinity. -/
inductive NUrg where
  | ninf
  | val (q : ℚ)
deriving DecidableEq

/-- Negation of an urgency score (line 108). -/
def negUrg : Urg → NUrg
  | .inf => .ninf
  | .val q => .val (-q)

/-- Strict order on negated urgencies (minus infinity below every rational). -/
def NUrg.lt : NUrg → NUrg → Bool
  | .ninf, .ninf => false
  | .ninf, .val _ => true
  | .val _, .ninf => false
  | .val a, .val b => a < b

/-- The sort key tuple of `priority_key` (lines 96-120):
(priority level, negated urgency, solar bonus, power). -/
def priorityKey (solar hour : ℚ) (j : Job) : ℕ × NUrg × ℤ × ℚ :=
  ( priorityLevel j.priority
  , negUrg (j.urgency_score hour)
  , if j.priority = .medium ∧ 2 < solar then (-1 : ℤ) else 0
  , j.power_kw )

/-- Lexicographic non-strict comparison of sort keys, as Python compares the
tuples returned by `priority_key`. -/
def keyLe (a b : ℕ × NUrg × ℤ × ℚ) : Bool :=
  decide (a.1 < b.1) ||
    (decide (a.1 = b.1) &&
      (NUrg.lt a.2.1 b.2.1 ||
        (decide (a.2.1 = b.2.1) &&
          (decide (a.2.2.1 < b.2.2.1) ||
            (decide (a.2.2.1 = b.2.2.1) && decide (a.2.2.2 ≤ b.2.2.2))))))

/-- Stable insertion used by the sort: an element is placed before the first
later element it compares at-or-below, so ties keep registration order, as
Python's stable `sorted` does. -/
def insertLe {α : Type} (le : α → α → Bool) (x : α) : List α → List α
  | [] => [x]
  | y :: ys => if le x y then x :: y :: ys else y :: insertLe le x ys

/-- Stable sort implementing `sorted(jobs, key=priority_key)` (line 122). -/
def sortLe {α : Type} (le : α → α → Bool) : List α → List α
  | [] => []
  | x :: xs => insertLe le x (sortLe le xs)

/-- Thermal gate (lines 59-61): skip low-priority jobs when too hot. -/
def thermalGate (temp : ℚ) (j : Job) : Prop :=
  THERMAL_THRESHOLD < temp ∧ j.priority = .low

instance (temp : ℚ) (j : Job) : Decidable (thermalGate temp j) :=
  inferInstanceAs (Decidable (_ ∧ _))

/-- Solar gate (lines 63-66): skip medium-priority jobs under 1 kW solar. -/
def solarGate (solar : ℚ) (j : Job) : Prop :=
  j.priority = .medium ∧ solar < 1

instance (solar : ℚ) (j : Job) : Decidable (solarGate solar j) :=
  inferInstanceAs (Decidable (_ ∧ _))

/-- Admission loop of `SmartScheduler.schedule` (lines 58-74): over the sorted
list, gated jobs are skipped (`continue`), a job within capacity is started
and admitted, and a job over capacity is skipped without ending the loop. -/
def smartAdmit (temp solar hour acc : ℚ) : List Job → List Job
  | [] => []
  | j :: rest =>
    if thermalGate temp j then smartAdmit temp solar hour acc rest
    else if solarGate solar j then smartAdmit temp solar hour acc rest
    else if acc + j.power_kw ≤ MAX_DATA_HUB_POWER then
      j.start hour :: smartAdmit temp solar hour (acc + j.power_kw) rest
    else smartAdmit temp solar hour acc rest

/-- `SmartScheduler.schedule(solar_available_kw, current_temp, current_hour)`
(lines 30-75): filter to WAITING jobs, sort by `priority_key`, then run the
gated admission loop with cumulative power starting at `0.0`. -/
def smartSchedule (jobs : List Job) (solar temp hour : ℚ) : List Job :=
  smartAdmit temp solar hour 0
    (sortLe (fun j1 j2 => keyLe (priorityKey solar hour j1) (priorityKey solar hour j2))
      (jobs.filter Job.is_waiting))

/-! ## Cooling model (src/cooling_model.py) -/

/-- `cooling_power_kw(hub_temp, compute_load_kw)` (lines 20-63); the two
`raise ValueError` paths become `none`. -/
def cooling_power_kw (hub_temp compute_load_kw : ℚ) : Option ℚ :=
  if hub_temp < 0 then none
  else if compute_load_kw < 0 then none
  else if hub_temp ≤ TEMP_THRESHOLD then some 0
  else
    let excess_temp := hub_temp - TEMP_THRESHOLD
    let cooling_requirement :=
      COOLING_FACTOR * excess_temp + LOAD_COOLING_FACTOR * compute_load_kw
    let electrical_power := cooling_requirement / COOLING_COP
    some (max 0 electrical_power)

/-! ## Metrics (src/metrics.py) -/

/-- Accumulator fields of `Metrics.__init__`. -/
structure Metrics where
  grid_energy : ℚ
  solar_energy : ℚ
  cooling_energy : ℚ
  carbon_kg : ℚ
  deadline_violations : ℕ
  deadline_penalty_kwh : ℚ
deriving DecidableEq

/-- `Metrics.add_energy(load_kw, solar_kw, dt_hours)` (lines 48-72). -/
def Metrics.add_energy (m : Metrics) (load_kw solar_kw dt_hours : ℚ) : Metrics :=
  let used_solar := min load_kw solar_kw
  let grid_power := load_kw - used_solar
  { m with
    solar_energy := m.solar_energy + used_solar * dt_hours
    grid_energy := m.grid_energy + grid_power * dt_hours
    carbon_kg := m.carbon_kg + grid_power * dt_hours * GRID_CARBON_INTENSITY }

/-! ## Simulation engine (src/simulation_runner.py) -/

/-- The per-step power split of `run_simulation` (lines 80-86):
`solar_used = min(compute_power, solar_available)`,
`grid_power = compute_power - solar_used`; returned as (solar_used, grid). -/
def powerSplit (compute_power solar_available : ℚ) : ℚ × ℚ :=
  let solar_used := min compute_power solar_available
  (solar_used, compute_power - solar_used)

/-- Job-state part of one iteration of `run_simulation`'s loop with a
baseline scheduler (lines 64-126): `schedule` admits previously WAITING jobs
(starting them), then `job.run_step(TIME_STEP_MINUTES, hour)` runs for exactly
the jobs in this step's admission list.  Since `run_step` only touches the job
itself, the admission and execution phases are fused per registry entry:
admitted entries get `start` then `run_step`; all other entries — including
already-RUNNING ones, which `schedule` never returns — are untouched. -/
def baselineRunJobs (hour acc : ℚ) : List Job → List Job
  | [] => []
  | j :: rest =>
    if j.is_waiting then
      if acc + j.power_kw ≤ MAX_DATA_HUB_POWER then
        (j.start hour).run_step TIME_STEP_MINUTES hour
          :: baselineRunJobs hour (acc + j.power_kw) rest
      else j :: rest
    else j :: baselineRunJobs hour acc rest

/-- One full step of `run_simulation`'s job dynamics under the baseline
scheduler: the schedule-and-advance pass, then the deadline check over every
registered job (lines 119-126). -/
def engineStepBaseline (hour : ℚ) (jobs : List Job) : List Job :=
  (baselineRunJobs hour BASELINE_BACKGROUND_LOAD jobs).map
    (fun j => (j.deadline_missed hour).2)

/-- Number of `True` results over a sequence of `deadline_missed` calls,
threading the job state from call to call. -/
def dmTrueCount (j : Job) : List ℚ → ℕ
  | [] => 0
  | h :: t =>
    (if (j.deadline_missed h).1 then 1 else 0) + dmTrueCount (j.deadline_missed h).2 t

/-! ## Helper lemmas -/

theorem start_preserves_fields (j : Job) (hour : ℚ) :
    (j.start hour).remaining = j.remaining ∧ (j.start hour).power_kw = j.power_kw ∧
      (j.start hour).priority = j.priority ∧ (j.start hour).penalized = j.penalized := by
  unfold Job.start
  split <;> simp

theorem deadline_missed_false_state (j : Job) (hour : ℚ)
    (h : (j.deadline_missed hour).1 = false) : (j.deadline_missed hour).2 = j := by
  obtain ⟨n, p, du, r, pr, dl, st, pen, sh⟩ := j
  rcases dl with _ | d
  · rfl
  · simp only [Job.deadline_missed] at h ⊢
    split at h
    · simp_all
    · rename_i hc
      rw [if_neg hc]

theorem deadline_missed_penalized (j : Job) (hour : ℚ) (h : j.penalized = true) :
    (j.deadline_missed hour).1 = false ∧ (j.deadline_missed hour).2 = j := by
  obtain ⟨n, p, du, r, pr, dl, st, pen, sh⟩ := j
  rcases dl with _ | d
  · exact ⟨rfl, rfl⟩
  · simp only [Job.deadline_missed]
    refine ⟨?_, ?_⟩ <;> (split <;> simp_all)

theorem deadline_missed_true_penalized (j : Job) (hour : ℚ)
    (h : (j.deadline_missed hour).1 = true) :
    ((j.deadline_missed hour).2).penalized = true := by
  obtain ⟨n, p, du, r, pr, dl, st, pen, sh⟩ := j
  rcases dl with _ | d
  · simp_all [Job.deadline_missed]
  · simp only [Job.deadline_missed] at h ⊢
    split at h
    · rename_i hc
      rw [if_pos hc]
    · simp_all

theorem dmTrueCount_penalized (j : Job) (h : j.penalized = true) :
    ∀ hours : List ℚ, dmTrueCount j hours = 0 := by
  intro hours
  induction hours with
  | nil => rfl
  | cons a t ih =>
    have hp := deadline_missed_penalized j a h
    simp [dmTrueCount, hp.1, hp.2, ih]

/-! ## Claim theorems for the job state machine -/

/-- C4: `deadline_missed` returns true exactly when the hour strictly exceeds
the deadline, the job is not DONE and it was not flagged before; it sets the
one-shot `penalized` flag, so over any sequence of calls it returns true at
most once, and a call at an hour exactly equal to the deadline returns
false. -/
theorem C4_deadline_one_shot :
    (∀ (j : Job) (d hour : ℚ), j.deadline = some d →
        ((j.deadline_missed hour).1 = true ↔
          d < hour ∧ j.status ≠ .DONE ∧ j.penalized = false))
    ∧ (∀ (j : Job) (hour : ℚ), (j.deadline_missed hour).1 = true →
        ∀ hours : List ℚ, dmTrueCount (j.deadline_missed hour).2 hours = 0)
    ∧ (∀ (j : Job) (hours : List ℚ), dmTrueCount j hours ≤ 1)
    ∧ (∀ (j : Job) (d : ℚ), j.deadline = some d → (j.deadline_missed d).1 = false) := by
  refine ⟨?_, ?_, ?_, ?_⟩
  · intro j d hour hd
    obtain ⟨n, p, du, r, pr, dl, st, pen, sh⟩ := j
    cases hd
    simp only [Job.deadline_missed]
    split <;> simp_all
  · intro j hour h hours
    exact dmTrueCount_penalized _ (deadline_missed_true_penalized j hour h) hours
  · intro j hours
    induction hours generalizing j with
    | nil => simp [dmTrueCount]
    | cons a t ih =>
      rcases hb : (j.deadline_missed a).1 with _ | _
      · have := deadline_missed_false_state j a hb
        simpa [dmTrueCount, hb, this] using ih j
      · have := dmTrueCount_penalized ((j.deadline_missed a).2)
          (deadline_missed_true_penalized j a hb) t
        simp [dmTrueCount, hb, this]
  · intro j d hd
    obtain ⟨n, p, du, r, pr, dl, st, pen, sh⟩ := j
    cases hd
    simp only [Job.deadline_missed]
    split <;> simp_all

/-- Witness for C4 at a concrete job with deadline 5: the check fires at hour
6, does not fire at hour 5 exactly, and fires at most once over a call
sequence. -/
theorem C4_deadline_one_shot_witness :
    ((mkJob "D" 1 30 .high (some 5)).deadline_missed 6).1 = true
    ∧ ((mkJob "D" 1 30 .high (some 5)).deadline_missed 5).1 = false
    ∧ dmTrueCount (mkJob "D" 1 30 .high (some 5)) [6, 7, 8] ≤ 1 := by
  refine ⟨?_, ?_, ?_⟩
  · exact (C4_deadline_one_shot.1 (mkJob "D" 1 30 .high (some 5)) 5 6 rfl).2
      ⟨by decide, by decide, rfl⟩
  · exact C4_deadline_one_shot.2.2.2 (mkJob "D" 1 30 .high (some 5)) 5 rfl
  · exact C4_deadline_one_shot.2.2.1 (mkJob "D" 1 30 .high (some 5)) [6, 7, 8]

/-- C6: the `Job` operations preserve the job invariant: `run_step` with a
non-negative step keeps `remaining` non-negative and non-increasing,
`remaining` is exactly 0 at the moment the job first becomes DONE, DONE is
terminal for `run_step`, the `penalized` flag is never reset by any
operation, and a job of zero initial duration becomes DONE on its first
`run_step`. -/
theorem C6_job_invariants :
    (∀ (j : Job) (dt : ℤ) (hour : ℚ), 0 ≤ dt → 0 ≤ j.remaining →
        0 ≤ (j.run_step dt hour).remaining ∧ (j.run_step dt hour).remaining ≤ j.remaining)
    ∧ (∀ (j : Job) (dt : ℤ) (hour : ℚ), j.status ≠ .DONE →
        (j.run_step dt hour).status = .DONE → (j.run_step dt hour).remaining = 0)
    ∧ (∀ (j : Job) (dt : ℤ) (hour : ℚ), j.status = .DONE → j.run_step dt hour = j)
    ∧ (∀ (j : Job) (hour : ℚ), j.penalized = true →
        (j.start hour).penalized = true ∧ ((j.deadline_missed hour).2).penalized = true)
    ∧ (∀ (j : Job) (dt : ℤ) (hour : ℚ), j.penalized = true →
        (j.run_step dt hour).penalized = true)
    ∧ (∀ (j : Job) (hour : ℚ), (j.start hour).remaining = j.remaining ∧
        ((j.deadline_missed hour).2).remaining = j.remaining ∧
        ((j.deadline_missed hour).2).status = j.status)
    ∧ (∀ (name : String) (p : ℚ) (pr : Priority) (dl : Option ℚ) (dt : ℤ) (hour : ℚ),
        0 ≤ dt → ((mkJob name p 0 pr dl).run_step dt hour).status = .DONE) := by
  refine ⟨?_, ?_, ?_, ?_, ?_, ?_, ?_⟩
  · intro j dt hour hdt hrem
    obtain ⟨n, p, du, r, pr, dl, st, pen, sh⟩ := j
    cases st <;>
      simp_all +decide [Job.run_step, Job.start] <;>
      split_ifs <;> simp_all <;> omega
  · intro j dt hour hstat
    obtain ⟨n, p, du, r, pr, dl, st, pen, sh⟩ := j
    cases st <;>
      simp_all +decide [Job.run_step, Job.start] <;>
      split_ifs <;> simp_all
  · intro j dt hour h
    unfold Job.run_step
    simp [h]
  · intro j hour h
    refine ⟨?_, ?_⟩
    · exact (start_preserves_fields j hour).2.2.2.trans h
    · rcases hb : (j.deadline_missed hour).1 with _ | _
      · rw [deadline_missed_false_state j hour hb]; exact h
      · exact deadline_missed_true_penalized j hour hb
  · intro j dt hour h
    obtain ⟨n, p, du, r, pr, dl, st, pen, sh⟩ := j
    cases st <;>
      simp_all +decide [Job.run_step, Job.start] <;>
      split_ifs <;> simp_all
  · intro j hour
    obtain ⟨n, p, du, r, pr, dl, st, pen, sh⟩ := j
    refine ⟨(start_preserves_fields _ hour).1, ?_, ?_⟩ <;>
      · rcases dl with _ | d
        · rfl
        · simp only [Job.deadline_missed]
          split <;> simp
  · intro name p pr dl dt hour hdt
    simp +decide [Job.run_step, Job.start, mkJob]
    split_ifs with hle
    · rfl
    · omega

/-- Witness for C6 at a concrete job: one step on a 20-minute waiting job
keeps the invariant, DONE is terminal, and a zero-duration job finishes on
its first step. -/
theorem C6_job_invariants_witness :
    (0 ≤ ((mkJob "J" 2 20 .low none).run_step 10 3).remaining ∧
      ((mkJob "J" 2 20 .low none).run_step 10 3).remaining ≤
        (mkJob "J" 2 20 .low none).remaining)
    ∧ ((mkJob "Z" 1 0 .high none).run_step 10 0).status = .DONE := by
  constructor
  · exact C6_job_invariants.1 (mkJob "J" 2 20 .low none) 10 3 (by decide) (by decide)
  · exact C6_job_invariants.2.2.2.2.2.2 "Z" 1 .high none 10 0 (by decide)

/-- C9: `start` is idempotent on RUNNING or DONE jobs and records
`start_hour` only the first time a WAITING job is started. -/
theorem C9_start_idempotent :
    (∀ (j : Job) (hour : ℚ), j.status = .RUNNING ∨ j.status = .DONE →
        j.start hour = j)
    ∧ (∀ (j : Job) (hour : ℚ), j.status = .WAITING → j.start_hour = none →
        (j.start hour).status = .RUNNING ∧ (j.start hour).start_hour = some hour)
    ∧ (∀ (j : Job) (hour h0 : ℚ), j.start_hour = some h0 →
        (j.start hour).start_hour = some h0) := by
  refine ⟨?_, ?_, ?_⟩
  · intro j hour h
    unfold Job.start
    rcases h with h | h <;> simp [h]
  · intro j hour hw hnone
    unfold Job.start
    simp [hw, hnone]
  · intro j hour h0 hsome
    unfold Job.start
    split <;> simp [hsome]

/-- Witness for C9 at concrete jobs: starting an already-RUNNING job changes
nothing, and a fresh WAITING job records the start hour. -/
theorem C9_start_idempotent_witness :
    ((mkJob "R" 1 30 .high none).start 2).start 7 = (mkJob "R" 1 30 .high none).start 2
    ∧ ((mkJob "R" 1 30 .high none).start 2).start_hour = some 2 := by
  constructor
  · exact C9_start_idempotent.1 ((mkJob "R" 1 30 .high none).start 2) 7
      (Or.inl (by decide))
  · exact C9_start_idempotent.2.2 ((mkJob "R" 1 30 .high none).start 2) 7 2 (by decide) ▸
      (C9_start_idempotent.2.1 (mkJob "R" 1 30 .high none) 2 rfl rfl).2

/-- C10: `urgency_score` is total: no deadline gives 0, a non-positive time
margin — including an hour exactly at the deadline — gives infinity without
any division, and a positive margin gives `(remaining/60) / (deadline − hour)`
with a provably non-zero divisor. -/
theorem C10_urgency_total :
    (∀ (j : Job) (hour : ℚ), j.deadline = none → j.urgency_score hour = .val 0)
    ∧ (∀ (j : Job) (hour d : ℚ), j.deadline = some d → d - hour ≤ 0 →
        j.urgency_score hour = .inf)
    ∧ (∀ (j : Job) (hour d : ℚ), j.deadline = some d → 0 < d - hour →
        j.urgency_score hour = .val (((j.remaining : ℚ) / 60) / (d - hour)) ∧
          d - hour ≠ 0) := by
  refine ⟨?_, ?_, ?_⟩
  · intro j hour h
    unfold Job.urgency_score
    rw [h]
  · intro j hour d hd hle
    unfold Job.urgency_score
    rw [hd]
    simp [hle]
  · intro j hour d hd hpos
    unfold Job.urgency_score
    rw [hd]
    constructor
    · simp [not_le.mpr hpos, le_of_lt hpos]
    · exact ne_of_gt hpos

/-- Witness for C10 at a concrete job: a job with deadline 8 at hour 8 has
infinite urgency; at hour 6 the urgency is the finite ratio. -/
theorem C10_urgency_total_witness :
    (mkJob "U" 1 30 .high (some 8)).urgency_score 8 = .inf
    ∧ (mkJob "U" 1 30 .high (some 8)).urgency_score 6 =
        .val ((((mkJob "U" 1 30 .high (some 8)).remaining : ℚ) / 60) / (8 - 6)) := by
  constructor
  · exact C10_urgency_total.2.1 (mkJob "U" 1 30 .high (some 8)) 8 8 rfl (by norm_num)
  · exact (C10_urgency_total.2.2 (mkJob "U" 1 30 .high (some 8)) 6 8 rfl (by norm_num)).1

/-- C7: the engine's per-step power split satisfies
`grid_power + solar_used = compute_power` and `solar_used ≤ solar_available`,
with `solar_used = min(compute_power, solar_available)`; and
`Metrics.add_energy` performs the same split, accumulating solar energy by
`used_solar × dt`, grid energy by `(load − used_solar) × dt`, and carbon by
the grid share times `dt` times the carbon intensity. -/
theorem C7_power_split :
    (∀ compute_power solar_available : ℚ,
        (powerSplit compute_power solar_available).2 +
            (powerSplit compute_power solar_available).1 = compute_power
        ∧ (powerSplit compute_power solar_available).1 ≤ solar_available
        ∧ (powerSplit compute_power solar_available).1 =
            min compute_power solar_available)
    ∧ (∀ (m : Metrics) (load_kw solar_kw dt_hours : ℚ),
        (m.add_energy load_kw solar_kw dt_hours).solar_energy =
            m.solar_energy + min load_kw solar_kw * dt_hours
        ∧ (m.add_energy load_kw solar_kw dt_hours).grid_energy =
            m.grid_energy + (load_kw - min load_kw solar_kw) * dt_hours
        ∧ (m.add_energy load_kw solar_kw dt_hours).carbon_kg =
            m.carbon_kg +
              (load_kw - min load_kw solar_kw) * dt_hours * GRID_CARBON_INTENSITY
        ∧ (m.add_energy load_kw solar_kw dt_hours).cooling_energy =
            m.cooling_energy) := by
  constructor
  · intro compute solar
    refine ⟨by simp [powerSplit], ?_, by simp [powerSplit]⟩
    simp [powerSplit, min_le_right]
  · intro m load solar dt
    refine ⟨rfl, rfl, rfl, rfl⟩

/-- C8: `cooling_power_kw` signals an error exactly on a negative temperature
or negative load; on valid inputs it returns 0 at or below the cooling
threshold, and above the threshold it returns the non-negative value
`(cooling factor × temperature excess + load factor × load) / COP`. -/
theorem C8_cooling_validation :
    (∀ t l : ℚ, cooling_power_kw t l = none ↔ t < 0 ∨ l < 0)
    ∧ (∀ t l : ℚ, 0 ≤ t → 0 ≤ l → t ≤ TEMP_THRESHOLD →
        cooling_power_kw t l = some 0)
    ∧ (∀ t l : ℚ, 0 ≤ l → TEMP_THRESHOLD < t →
        cooling_power_kw t l =
          some ((COOLING_FACTOR * (t - TEMP_THRESHOLD) +
            LOAD_COOLING_FACTOR * l) / COOLING_COP)
        ∧ 0 ≤ (COOLING_FACTOR * (t - TEMP_THRESHOLD) +
            LOAD_COOLING_FACTOR * l) / COOLING_COP) := by
  refine ⟨?_, ?_, ?_⟩
  · intro t l
    unfold cooling_power_kw
    split_ifs with h1 h2 h3 <;> simp_all
  · intro t l ht hl hth
    unfold cooling_power_kw
    rw [if_neg (by linarith), if_neg (by linarith), if_pos hth]
  · intro t l hl hth
    have hnn : 0 ≤ (COOLING_FACTOR * (t - TEMP_THRESHOLD) +
        LOAD_COOLING_FACTOR * l) / COOLING_COP := by
      have h1 : (0 : ℚ) ≤ COOLING_FACTOR * (t - TEMP_THRESHOLD) := by
        unfold COOLING_FACTOR TEMP_THRESHOLD at *
        nlinarith
      have h2 : (0 : ℚ) ≤ LOAD_COOLING_FACTOR * l := by
        unfold LOAD_COOLING_FACTOR
        nlinarith
      unfold COOLING_COP
      positivity
    refine ⟨?_, hnn⟩
    unfold cooling_power_kw
    rw [if_neg (by unfold TEMP_THRESHOLD at hth; linarith),
        if_neg (by linarith), if_neg (by linarith)]
    simp [max_eq_right hnn]

/-- Witness for C8: a negative temperature errors, (20, 4) is at or below the
threshold so cooling is zero, and (30, 8) is above the threshold. -/
theorem C8_cooling_validation_witness :
    cooling_power_kw (-1) 4 = none
    ∧ cooling_power_kw 20 4 = some 0
    ∧ cooling_power_kw 30 8 =
        some ((COOLING_FACTOR * (30 - TEMP_THRESHOLD) +
          LOAD_COOLING_FACTOR * 8) / COOLING_COP) := by
  refine ⟨?_, ?_, ?_⟩
  · exact (C8_cooling_validation.1 (-1) 4).2 (Or.inl (by norm_num))
  · exact C8_cooling_validation.2.1 20 4 (by norm_num) (by norm_num)
      (by unfold TEMP_THRESHOLD; norm_num)
  · exact (C8_cooling_validation.2.2 30 8 (by norm_num)
      (by unfold TEMP_THRESHOLD; norm_num)).1

/-- C5: for the registered list [A(2 kW), B(5 kW), C(4 kW)] the baseline
scheduler admits exactly A and B (3+2+5 = 10 ≤ 10) and defers C
(3+2+5+4 = 14 > 10), for every solar, temperature and hour argument and
regardless of the jobs' priority and deadline fields. -/
theorem C5_baseline_example :
    ∀ (pA pB pC : Priority) (dA dB dC : Option ℚ) (solar temp hour : ℚ),
      ((baselineSchedule
          [mkJob "A" 2 60 pA dA, mkJob "B" 5 60 pB dB, mkJob "C" 4 60 pC dC]
          solar temp hour).1).map Job.name = ["A", "B"]
      ∧ ((baselineSchedule
          [mkJob "A" 2 60 pA dA, mkJob "B" 5 60 pB dB, mkJob "C" 4 60 pC dC]
          solar temp hour).2).map Job.status = [.RUNNING, .RUNNING, .WAITING] := by
  intro pA pB pC dA dB dC solar temp hour
  norm_num +decide [baselineSchedule, baselineLoop, mkJob, Job.is_waiting,
    Job.start, MAX_DATA_HUB_POWER, BASELINE_BACKGROUND_LOAD]

/-- Every member of the smart admission loop's result is the `start` of a
source-list job that passed both gates. -/
theorem mem_smartAdmit {temp solar hour : ℚ} :
    ∀ (l : List Job) (acc : ℚ) (j' : Job), j' ∈ smartAdmit temp solar hour acc l →
      ∃ j ∈ l, j' = j.start hour ∧ ¬ thermalGate temp j ∧ ¬ solarGate solar j := by
  intro l
  induction l with
  | nil => intro acc j' h; simp [smartAdmit] at h
  | cons a t ih =>
    intro acc j' h
    unfold smartAdmit at h
    split_ifs at h with h1 h2 h3
    · obtain ⟨j, hj, hrest⟩ := ih acc j' h
      exact ⟨j, List.mem_cons_of_mem _ hj, hrest⟩
    · obtain ⟨j, hj, hrest⟩ := ih acc j' h
      exact ⟨j, List.mem_cons_of_mem _ hj, hrest⟩
    · rcases List.mem_cons.mp h with h' | h'
      · exact ⟨a, List.mem_cons_self _ _, h', h1, h2⟩
      · obtain ⟨j, hj, hrest⟩ := ih _ j' h'
        exact ⟨j, List.mem_cons_of_mem _ hj, hrest⟩
    · obtain ⟨j, hj, hrest⟩ := ih acc j' h
      exact ⟨j, List.mem_cons_of_mem _ hj, hrest⟩

/-- C3: when the temperature exceeds the thermal threshold no low-priority
job is in the returned admission list; when solar is below the minimum usable
threshold (1 kW) no medium-priority job is in the list; and neither gate ever
applies to a high-priority job. -/
theorem C3_gating :
    ∀ (jobs : List Job) (solar temp hour : ℚ),
      (THERMAL_THRESHOLD < temp →
        ∀ j ∈ smartSchedule jobs solar temp hour, j.priority ≠ .low)
      ∧ (solar < 1 →
        ∀ j ∈ smartSchedule jobs solar temp hour, j.priority ≠ .medium)
      ∧ (∀ j : Job, j.priority = .high →
        ¬ thermalGate temp j ∧ ¬ solarGate solar j) := by
  intro jobs solar temp hour
  refine ⟨?_, ?_, ?_⟩
  · intro htemp j' hmem hlow
    obtain ⟨j, _, hstart, hth, _⟩ := mem_smartAdmit _ _ j' hmem
    exact hth ⟨htemp, by rw [← (start_preserves_fields j hour).2.2.1, ← hstart]; exact hlow⟩
  · intro hsolar j' hmem hmed
    obtain ⟨j, _, hstart, _, hso⟩ := mem_smartAdmit _ _ j' hmem
    exact hso ⟨by rw [← (start_preserves_fields j hour).2.2.1, ← hstart]; exact hmed, hsolar⟩
  · intro j hhigh
    constructor
    · intro hg
      have h2 : j.priority = .low := hg.2
      rw [hhigh] at h2
      exact absurd h2 (by decide)
    · intro hg
      have h2 : j.priority = .medium := hg.1
      rw [hhigh] at h2
      exact absurd h2 (by decide)

/-- Witness for C3: with temperature 33 °C and no solar, a registered
low-priority job is not admitted and no medium-priority job is admitted; a
high-priority job is touched by neither gate. -/
theorem C3_gating_witness :
    (∀ j ∈ smartSchedule [mkJob "L" 1 30 .low none] 0 33 0, j.priority ≠ .low)
    ∧ (∀ j ∈ smartSchedule [mkJob "L" 1 30 .low none] 0 33 0, j.priority ≠ .medium)
    ∧ (¬ thermalGate 33 (mkJob "H" 1 30 .high none)
        ∧ ¬ solarGate 0 (mkJob "H" 1 30 .high none)) := by
  refine ⟨?_, ?_, ?_⟩
  · exact (C3_gating [mkJob "L" 1 30 .low none] 0 33 0).1 (by decide)
  · exact (C3_gating [mkJob "L" 1 30 .low none] 0 33 0).2.1 (by decide)
  · exact (C3_gating [mkJob "L" 1 30 .low none] 0 33 0).2.2 (mkJob "H" 1 30 .high none) rfl

/-- Whether a job passes both of the smart scheduler's gates. -/
def gatedPass (temp solar : ℚ) (j : Job) : Bool :=
  !(decide (thermalGate temp j)) && !(decide (solarGate solar j))

/-- Modelled from the amended claim for C2: greedy admission over an already
ordered list against the power ceiling, with the cumulative admitted power
starting from the given accumulator and a job that would exceed the ceiling
skipped without stopping admission. -/
def greedySkipAdmit (hour acc : ℚ) : List Job → List Job
  | [] => []
  | j :: rest =>
    if acc + j.power_kw ≤ MAX_DATA_HUB_POWER then
      j.start hour :: greedySkipAdmit hour (acc + j.power_kw) rest
    else greedySkipAdmit hour acc rest

/-- The admission rule asserted by claim C2, in the spec's words for the
Baseline scheduler: cumulative admitted power starts from the given
accumulator and admission stops at the first job that would exceed the
ceiling. -/
def claimedStopAdmit (hour acc : ℚ) : List Job → List Job
  | [] => []
  | j :: rest =>
    if acc + j.power_kw ≤ MAX_DATA_HUB_POWER then
      j.start hour :: claimedStopAdmit hour (acc + j.power_kw) rest
    else []

/-- The smart admission loop equals gate-filtering followed by
skip-style greedy admission. -/
theorem smartAdmit_eq_greedySkip (temp solar hour : ℚ) :
    ∀ (l : List Job) (acc : ℚ),
      smartAdmit temp solar hour acc l =
        greedySkipAdmit hour acc (l.filter (gatedPass temp solar)) := by
  intro l
  induction l with
  | nil => intro acc; rfl
  | cons a t ih =>
    intro acc
    unfold smartAdmit
    by_cases h1 : thermalGate temp a
    · simp [h1, List.filter, gatedPass, ih]
    · by_cases h2 : solarGate solar a
      · simp [h1, h2, List.filter, gatedPass, ih]
      · simp only [if_neg h1, if_neg h2]
        have : List.filter (gatedPass temp solar) (a :: t) =
            a :: List.filter (gatedPass temp solar) t := by
          simp [List.filter, gatedPass, h1, h2]
        rw [this]
        unfold greedySkipAdmit
        split_ifs with h3 <;> rw [ih]

/-- Skip-style greedy admission keeps the cumulative admitted power within
the ceiling headroom left by the accumulator. -/
theorem greedySkipAdmit_sum (hour : ℚ) :
    ∀ (l : List Job) (acc : ℚ), acc ≤ MAX_DATA_HUB_POWER →
      acc + ((greedySkipAdmit hour acc l).map Job.power_kw).sum ≤
        MAX_DATA_HUB_POWER := by
  intro l
  induction l with
  | nil => intro acc hacc; simpa [greedySkipAdmit] using hacc
  | cons a t ih =>
    intro acc hacc
    unfold greedySkipAdmit
    split_ifs with h
    · have := ih (acc + a.power_kw) h
      simp only [List.map_cons, List.sum_cons, (start_preserves_fields a hour).2.1]
      linarith
    · exact ih acc hacc

/-- Counterexample to C2: with jobs X(8 kW, high), Y(9 kW, medium),
Z(2 kW, low) at solar 5, temperature 30, hour 0 (no gate active, sorted
order X, Y, Z), the smart scheduler admits X and Z, while admission
"exactly as Baseline" — starting from the background load and stopping at
the first over-ceiling job — over the very same sorted, gated eligible list
admits nothing, since 3 + 8 > 10. -/
theorem C2_counterexample :
    (smartSchedule [mkJob "X" 8 60 .high none, mkJob "Y" 9 60 .medium none,
        mkJob "Z" 2 60 .low none] 5 30 0).map Job.name = ["X", "Z"]
    ∧ claimedStopAdmit 0 BASELINE_BACKGROUND_LOAD
        ((sortLe (fun j1 j2 => keyLe (priorityKey 5 0 j1) (priorityKey 5 0 j2))
            (([mkJob "X" 8 60 .high none, mkJob "Y" 9 60 .medium none,
              mkJob "Z" 2 60 .low none]).filter Job.is_waiting)).filter
          (gatedPass 30 5)) = []
    ∧ ¬ (BASELINE_BACKGROUND_LOAD + (8 : ℚ) ≤ MAX_DATA_HUB_POWER) := by
  refine ⟨?_, ?_, by norm_num [BASELINE_BACKGROUND_LOAD, MAX_DATA_HUB_POWER]⟩
  · norm_num +decide [smartSchedule, smartAdmit, sortLe, insertLe, keyLe,
      priorityKey, priorityLevel, negUrg, NUrg.lt, Job.urgency_score, mkJob,
      Job.is_waiting, Job.start, thermalGate, solarGate, MAX_DATA_HUB_POWER,
      THERMAL_THRESHOLD, List.filter]
  · norm_num +decide [claimedStopAdmit, sortLe, insertLe, keyLe, priorityKey,
      priorityLevel, negUrg, NUrg.lt, Job.urgency_score, mkJob, Job.is_waiting,
      Job.start, gatedPass, thermalGate, solarGate, MAX_DATA_HUB_POWER,
      THERMAL_THRESHOLD, BASELINE_BACKGROUND_LOAD, List.filter]

/-- C2 as amended: the smart scheduler admits its sorted, gated eligible jobs
greedily against the power ceiling, but with the cumulative admitted power
starting at zero rather than the background load, and with a job that would
exceed the ceiling skipped rather than stopping admission; consequently the
total admitted power never exceeds the ceiling. -/
theorem C2_amended :
    ∀ (jobs : List Job) (solar temp hour : ℚ),
      smartSchedule jobs solar temp hour =
        greedySkipAdmit hour 0
          ((sortLe (fun j1 j2 =>
              keyLe (priorityKey solar hour j1) (priorityKey solar hour j2))
            (jobs.filter Job.is_waiting)).filter (gatedPass temp solar))
      ∧ ((smartSchedule jobs solar temp hour).map Job.power_kw).sum ≤
          MAX_DATA_HUB_POWER := by
  intro jobs solar temp hour
  constructor
  · unfold smartSchedule
    exact smartAdmit_eq_greedySkip temp solar hour _ 0
  · have h := greedySkipAdmit_sum hour
      ((sortLe (fun j1 j2 =>
          keyLe (priorityKey solar hour j1) (priorityKey solar hour j2))
        (jobs.filter Job.is_waiting)).filter (gatedPass temp solar)) 0
      (by norm_num [MAX_DATA_HUB_POWER])
    rw [smartSchedule, smartAdmit_eq_greedySkip]
    linarith

/-- C1: evaluation of the engine's job dynamics at the failing input — a
single 20-minute job under the baseline scheduler.  At step 0 (hour 0) the
job is admitted, started, and advanced once (remaining 20 → 10, RUNNING);
at the next step (hour 1/6) the scheduler's eligible set contains only
WAITING jobs, so the still-RUNNING job is not returned, not advanced, and
its remaining duration stays 10 instead of decreasing towards DONE. -/
theorem C1_frozen_job_eval :
    (engineStepBaseline 0 [mkJob "J" 1 20 .high none]).map
        (fun j => (j.remaining, j.status)) = [(10, .RUNNING)]
    ∧ (engineStepBaseline (1/6) (engineStepBaseline 0 [mkJob "J" 1 20 .high none])).map
        (fun j => (j.remaining, j.status)) = [(10, .RUNNING)] := by
  constructor
  · norm_num +decide [engineStepBaseline, baselineRunJobs, mkJob, Job.is_waiting,
      Job.start, Job.run_step, Job.deadline_missed, MAX_DATA_HUB_POWER,
      BASELINE_BACKGROUND_LOAD, TIME_STEP_MINUTES]
  · norm_num +decide [engineStepBaseline, baselineRunJobs, mkJob, Job.is_waiting,
      Job.start, Job.run_step, Job.deadline_missed, MAX_DATA_HUB_POWER,
      BASELINE_BACKGROUND_LOAD, TIME_STEP_MINUTES]

end SmartSchedulo
